import Mathlib

/-!
# Verification of the Tomato scheduler adapter (`aiida_aurora/scheduler.py`)

A shallow embedding of the scheduler adapter of the `aiida-aurora` package:
the command builders (`_get_joblist_command`, `_get_detailed_job_info_command`,
`_get_kill_command`), the output parsers (`_parse_joblist_output`,
`_parse_submit_output`, `_parse_kill_output`) and the status mapping table
`_MAP_STATUS_TOMATO`, together with theorems settling the specification's
claims about them.

Python strings become Lean `String`s; Python exceptions become an explicit
error type threaded through `Except`; the fixed submission regular expression
`(.*:\s*)?(jobid\s+=)\s+(?P<jobid>\d+)` is embedded as an executable matcher
with the same (greedy, anchored-at-start) semantics.
-/

/-- ASCII whitespace as recognized by Python's `str.split()` / `str.strip()`
(we model the ASCII fragment: space, tab, newline, carriage return,
vertical tab, form feed). -/
def pyIsSpace (c : Char) : Bool :=
  c = ' ' || c = '\t' || c = '\n' || c = '\x0d' || c = '\x0b' || c = '\x0c'

/-- Accumulator for Python `str.split()`: walk the characters, flushing the
(reversed) accumulated token at each whitespace run, discarding empty
tokens. -/
def pySplitAux : List Char → List Char → List String
  | [], acc => if acc = [] then [] else [⟨acc.reverse⟩]
  | c :: rest, acc =>
    if pyIsSpace c then
      if acc = [] then pySplitAux rest []
      else ⟨acc.reverse⟩ :: pySplitAux rest []
    else pySplitAux rest (c :: acc)

/-- Python `str.split()` with no argument: split on runs of whitespace,
discarding empty tokens. -/
def pySplit (s : String) : List String :=
  pySplitAux s.data []

/-- Python `str.strip()`: remove leading and trailing whitespace. -/
def pyStrip (s : String) : String :=
  ⟨((s.data.dropWhile pyIsSpace).reverse.dropWhile pyIsSpace).reverse⟩

/-- Accumulator for Python `str.splitlines()`: one piece per `\n`, with no
trailing empty piece after a final `\n`. -/
def pySplitlinesAux : List Char → List Char → List String
  | [], acc => if acc = [] then [] else [⟨acc.reverse⟩]
  | c :: rest, acc =>
    if c = '\n' then ⟨acc.reverse⟩ :: pySplitlinesAux rest []
    else pySplitlinesAux rest (c :: acc)

/-- Python `str.splitlines()` restricted to `\n` line terminators (the only
terminator occurring in the scheduler's inputs). -/
def pySplitlines (s : String) : List String :=
  pySplitlinesAux s.data []

/-- Accumulator for Python `str.split('\n')`: one piece per `\n`, keeping
the (possibly empty) final piece. -/
def pySplitNlAux : List Char → List Char → List String
  | [], acc => [⟨acc.reverse⟩]
  | c :: rest, acc =>
    if c = '\n' then ⟨acc.reverse⟩ :: pySplitNlAux rest []
    else pySplitNlAux rest (c :: acc)

/-- Python `str.split('\n')`. -/
def pySplitNl (s : String) : List String :=
  pySplitNlAux s.data []

/-- Substring containment on character lists (Python `needle in haystack`):
the needle is a prefix of some suffix of the haystack. -/
def containsSub (needle : List Char) : List Char → Bool
  | [] => needle.isPrefixOf []
  | c :: rest => needle.isPrefixOf (c :: rest) || containsSub needle rest

/-- Python `needle in haystack` (substring containment). -/
def pyIn (needle hay : String) : Bool :=
  containsSub needle.data hay.data

/-- Replace each single quote by the five-character sequence
quote–double-quote–quote–double-quote–quote. -/
def escapeQuotes : List Char → List Char
  | [] => []
  | c :: rest =>
    if c = '\x27' then
      '\x27' :: '\x22' :: '\x27' :: '\x22' :: '\x27' :: escapeQuotes rest
    else c :: escapeQuotes rest

/-- `aiida.common.escaping.escape_for_bash` (single-quote flavour, as called
by the scheduler): escape embedded single quotes and wrap in single quotes. -/
def escape_for_bash (s : String) : String :=
  ⟨'\x27' :: (escapeQuotes s.data ++ ['\x27'])⟩

/-- The canonical job states of `aiida.schedulers.datastructures.JobState`. -/
inductive JobState where
  | UNDETERMINED
  | QUEUED
  | QUEUED_HELD
  | RUNNING
  | SUSPENDED
  | DONE
deriving DecidableEq, Repr

/-- The `_MAP_STATUS_TOMATO` dictionary together with the adapter's
`KeyError` fallback: the six known Tomato tokens map to their canonical
states, any other token falls through to `UNDETERMINED` (the scheduler's
`except KeyError` branch). -/
def mapStatusTomato (token : String) : JobState :=
  if token = "q" then JobState.QUEUED
  else if token = "qw" then JobState.QUEUED
  else if token = "r" then JobState.RUNNING
  else if token = "c" then JobState.DONE
  else if token = "ce" then JobState.DONE
  else if token = "cd" then JobState.DONE
  else JobState.UNDETERMINED

/-- The Python exceptions the scheduler's methods can raise, plus the
non-raising error-free paths' data, made explicit. -/
inductive SchedErr where
  | schedulerError (msg : String)
  | featureNotAvailable (msg : String)
  | valueError (msg : String)
  | indexError
  | typeError (msg : String)
deriving DecidableEq, Repr

/-- One entry of the list `_parse_joblist_output` returns: the fields of an
`aiida` `JobInfo` object that the adapter sets. -/
structure JobInfo where
  job_id : String
  job_state : JobState
  pipeline : Option String
  raw_data : List String
deriving DecidableEq, Repr

/-- `TomatoScheduler._get_detailed_job_info_command`: single-job status
query with the job id shell-escaped. -/
def get_detailed_job_info_command (job_id : String) : String :=
  "ketchup -t status " ++ escape_for_bash job_id

/-- `TomatoScheduler._get_kill_command`: note the job id is interpolated
raw (the source's f-string does not call `escape_for_bash`). -/
def get_kill_command (jobid : String) : String :=
  "ketchup -t cancel " ++ jobid

/-- `TomatoScheduler._get_submit_command`. -/
def get_submit_command (submit_script : String) : String :=
  "ketchup -t submit " ++ submit_script

/-- `TomatoScheduler._parse_kill_output`: `False` on non-zero exit code,
`True` otherwise (logging aside). -/
def parse_kill_output (retval : Int) (stdout stderr : String) : Bool :=
  if retval ≠ 0 then false
  else
    -- warnings are logged for non-empty stderr/stdout, the result is True
    let _ := pyStrip stdout
    let _ := pyStrip stderr
    true

/-- The `jobs` argument of `_get_joblist_command`: Python allows `None`,
a bare string, or a list of strings. -/
inductive JobsArg where
  | none
  | str (s : String)
  | list (l : List String)
deriving DecidableEq, Repr

/-- Python truthiness of the `jobs` argument (`if jobs:`). -/
def JobsArg.truthy : JobsArg → Bool
  | .none => false
  | .str s => s ≠ ""
  | .list l => l ≠ []

/-- Python `len(jobs)`: character count for a string, element count for a list. -/
def JobsArg.len : JobsArg → Nat
  | .none => 0
  | .str s => s.length
  | .list l => l.length

/-- Python truthiness of the optional `user` argument (`if user:`). -/
def pyTruthyStr : Option String → Bool
  | Option.none => false
  | Option.some s => s ≠ ""

/-- `TomatoScheduler._get_joblist_command`: builds the `ketchup -t status`
command line. Querying by user is unsupported; more than one job id is
unsupported (note `len` counts characters when `jobs` is a bare string);
an empty/absent `jobs` requests the full queue. -/
def get_joblist_command (jobs : JobsArg) (user : Option String) :
    Except SchedErr String :=
  if pyTruthyStr user then
    .error (.featureNotAvailable "Cannot query by user")
  else if jobs.truthy then
    if jobs.len > 1 then
      .error (.featureNotAvailable "ketchup status supports only one job per time")
    else
      match jobs with
      | .str s =>
          .ok (String.intercalate " " ["ketchup", "-t", "status", escape_for_bash s])
      | .list l =>
          .ok (String.intercalate " "
            ["ketchup", "-t", "status",
             String.intercalate " " (l.map escape_for_bash)])
      | .none =>
          -- unreachable: `JobsArg.none` is falsy
          .ok (String.intercalate " " ["ketchup", "-t", "status", "queue"])
  else
    .ok (String.intercalate " " ["ketchup", "-t", "status", "queue"])

/-- The literal divider string tested for in `_parse_joblist_output`
(42 consecutive equals signs). -/
def tomatoDivider : String := "=========================================="

/-- The line filter of `_parse_joblist_output`: keep a line iff it is
non-empty, does not contain the substring `jobid`, and does not contain
the 42-equals divider substring. -/
def keepJobLine (l : String) : Bool :=
  l ≠ "" && !(pyIn "jobid" l) && !(pyIn tomatoDivider l)

/-- The error message raised on a job line with more than 3 columns. -/
def tooManyColumnsMsg : String :=
  "More than 3 columns returned by ketchup -t status queue"

/-- The body of the per-job loop of `_parse_joblist_output`, for one token
list `job`: `job[0]` and `job[1]` raise `IndexError` when absent (only
`KeyError` from the status lookup is caught), 2 tokens give no pipeline,
3 tokens give a pipeline, more raise `ValueError`. -/
def processJob (job : List String) : Except SchedErr JobInfo :=
  match job with
  | [] => .error .indexError
  | [_] => .error .indexError
  | [a, b] => .ok ⟨a, mapStatusTomato b, Option.none, job⟩
  | [a, b, c] => .ok ⟨a, mapStatusTomato b, Option.some c, job⟩
  | _ => .error (.valueError tooManyColumnsMsg)

/-- The per-job loop of `_parse_joblist_output` over the whole token-list
list: build one `JobInfo` per entry in order, propagating the first
exception (Python raises out of the loop). -/
def processJobs : List (List String) → Except SchedErr (List JobInfo)
  | [] => .ok []
  | job :: rest =>
    match processJob job with
    | .error e => .error e
    | .ok ji =>
      match processJobs rest with
      | .error e => .error e
      | .ok rest' => .ok (ji :: rest')

/-- The `SchedulerError` message of `_parse_joblist_output` on non-zero
exit code (the source concatenates three f-strings with no separator). -/
def joblistRetvalMsg (retval : Int) (stdout stderr : String) : String :=
  "kethup returned exit code " ++ toString retval ++
    " (_parse_joblist_output function)" ++
    "stdout='" ++ pyStrip stdout ++ "'" ++
    "stderr='" ++ pyStrip stderr ++ "'"

/-- `TomatoScheduler._parse_joblist_output`: raise on non-zero exit code,
split stdout into lines, drop empty lines and lines containing `jobid` or
the 42-equals divider, whitespace-split the rest, and build one `JobInfo`
per line (stopping at the first per-line exception). -/
def parse_joblist_output (retval : Int) (stdout stderr : String) :
    Except SchedErr (List JobInfo) :=
  if retval ≠ 0 then
    .error (.schedulerError (joblistRetvalMsg retval stdout stderr))
  else
    let jobdata_raw := ((pySplitlines stdout).filter keepJobLine).map pySplit
    processJobs jobdata_raw

/-- The core of the submission regular expression after any prefix has been
consumed: literal `jobid`, one or more whitespace characters, `=`, one or
more whitespace characters, then the maximal run of one or more digits,
which is returned (the `jobid` named group). -/
def matchCore (cs : List Char) : Option String :=
  match cs with
  | 'j' :: 'o' :: 'b' :: 'i' :: 'd' :: rest =>
    let ws1 := rest.takeWhile pyIsSpace
    if ws1 = [] then Option.none
    else
      match rest.dropWhile pyIsSpace with
      | '=' :: rest2 =>
        let ws2 := rest2.takeWhile pyIsSpace
        if ws2 = [] then Option.none
        else
          let digits := (rest2.dropWhile pyIsSpace).takeWhile Char.isDigit
          if digits = [] then Option.none else Option.some ⟨digits⟩
      | _ => Option.none
  | _ => Option.none

/-- The suffixes of `cs` following each colon, ordered with the suffix of
the last colon first — the order in which the greedy optional prefix group
`(.*:\s*)?` of `_TOMATO_SUBMITTED_REGEXP` tries its matches. -/
def afterColons : List Char → List (List Char)
  | [] => []
  | c :: rest =>
    let ts := afterColons rest
    if c = ':' then ts ++ [rest] else ts

/-- `_TOMATO_SUBMITTED_REGEXP.match(s)` restricted to the `jobid` group:
the pattern `(.*:\s*)?(jobid\s+=)\s+(?P<jobid>\d+)`, anchored at the start
of the string, with the greedy prefix group preferring the latest colon;
after a colon all whitespace is skipped (the core starts with the
non-whitespace `j`, so only the maximal `\s*` position can succeed).
Returns the digit group on success. -/
def tomatoSubmittedMatch (s : String) : Option String :=
  let cs := s.data
  match (afterColons cs).findSome?
      (fun t => matchCore (t.dropWhile pyIsSpace)) with
  | Option.some d => Option.some d
  | Option.none => matchCore cs

/-- The `SchedulerError` message of `_parse_submit_output` on non-zero exit
code. -/
def submitRetvalMsg (retval : Int) (stdout stderr : String) : String :=
  "Error during submission, retval=" ++ toString retval ++
    "; stdout=" ++ stdout ++ "; stderr=" ++ stderr

/-- The `SchedulerError` message of `_parse_submit_output` when no line
matches the submission pattern. -/
def submitNoJobIdMsg : String :=
  "Error during submission, could not retrieve the jobID from ketchup output; see log for more info."

/-- `TomatoScheduler._parse_submit_output`: raise on non-zero exit code,
then scan `stdout.split('\n')` in order and return the digit group of the
first stripped line matched by `_TOMATO_SUBMITTED_REGEXP`; raise a
`SchedulerError` when no line matches. -/
def parse_submit_output (retval : Int) (stdout stderr : String) :
    Except SchedErr String :=
  if retval ≠ 0 then
    .error (.schedulerError (submitRetvalMsg retval stdout stderr))
  else
    match (pySplitNl stdout).findSome?
        (fun line => tomatoSubmittedMatch (pyStrip line)) with
    | Option.some jobid => .ok jobid
    | Option.none => .error (.schedulerError submitNoJobIdMsg)

/-! ## Helper lemmas -/

/-- Every token produced by `pySplitAux` from a non-empty accumulator or
the remaining characters is non-empty. -/
theorem pySplitAux_mem_ne_empty (cs : List Char) :
    ∀ (acc : List Char), ∀ t ∈ pySplitAux cs acc, t ≠ "" := by
  induction cs with
  | nil =>
    intro acc t ht
    unfold pySplitAux at ht
    by_cases hacc : acc = []
    · simp [hacc] at ht
    · rw [if_neg hacc] at ht
      rcases List.mem_singleton.mp ht with rfl
      intro hcon
      apply hacc
      have : acc.reverse = ([] : List Char) := congrArg String.data hcon
      simpa using this
  | cons c rest ih =>
    intro acc t ht
    unfold pySplitAux at ht
    by_cases hc : pyIsSpace c
    · rw [if_pos hc] at ht
      by_cases hacc : acc = []
      · rw [if_pos hacc] at ht
        exact ih [] t ht
      · rw [if_neg hacc] at ht
        rcases List.mem_cons.mp ht with rfl | ht
        · intro hcon
          apply hacc
          have : acc.reverse = ([] : List Char) := congrArg String.data hcon
          simpa using this
        · exact ih [] t ht
    · rw [if_neg hc] at ht
      exact ih (c :: acc) t ht

/-- Every token produced by `pySplit` is non-empty. -/
theorem pySplit_mem_ne_empty {s : String} {t : String} (h : t ∈ pySplit s) :
    t ≠ "" :=
  pySplitAux_mem_ne_empty s.data [] t h

/-- If `processJob` succeeds, the record's `job_id` is a member of the
token list it was built from. -/
theorem processJob_ok_job_id_mem {job : List String} {ji : JobInfo}
    (h : processJob job = .ok ji) : ji.job_id ∈ job := by
  match job, h with
  | [a, b], h =>
    cases h
    simp
  | [a, b, c], h =>
    cases h
    simp

/-- Every record of a successful `processJobs` run comes from one entry of
the input list. -/
theorem processJobs_ok_mem {l : List (List String)} {ys : List JobInfo}
    (h : processJobs l = .ok ys) :
    ∀ y ∈ ys, ∃ x ∈ l, processJob x = .ok y := by
  induction l generalizing ys with
  | nil =>
    cases h
    simp
  | cons job rest ih =>
    unfold processJobs at h
    cases hj : processJob job with
    | error e => rw [hj] at h; cases h
    | ok ji =>
      rw [hj] at h
      cases hr : processJobs rest with
      | error e => rw [hr] at h; cases h
      | ok rest' =>
        rw [hr] at h
        cases h
        intro y hy
        rcases List.mem_cons.mp hy with hy | hy
        · exact ⟨job, by simp, hy ▸ hj⟩
        · rcases ih hr y hy with ⟨x, hx, hfx⟩
          exact ⟨x, by simp [hx], hfx⟩

/-- If `findSome?` is told `none` on every element, it returns `none`. -/
theorem findSome?_eq_none_of {α β : Type} (f : α → Option β) (l : List α)
    (h : ∀ x ∈ l, f x = Option.none) : l.findSome? f = Option.none := by
  induction l with
  | nil => rfl
  | cons a t ih =>
    rw [List.findSome?_cons]
    rw [h a (by simp)]
    exact ih (fun x hx => h x (by simp [hx]))

/-! ## Claim C1 -/

/-- C1 counterexample: on the exact input of the claim, whose divider line
is `===` (three equals signs, which does not contain the 42-equals literal
the filter looks for), `_parse_joblist_output` does not return two records:
the divider line survives the filter, is split into the single token `===`,
and the access `job[1]` raises an uncaught `IndexError`. -/
theorem C1_counterexample :
    parse_joblist_output 0 "jobid status pipeline\n===\n7 r pipelineA\n8 c\n" ""
      = .error SchedErr.indexError := by
  rfl

/-- C1 amended: the header line (containing `jobid`) is discarded, and a
divider line is discarded exactly when it contains the 42-equals literal;
with such a divider the claimed scenario holds: two records in input
order, the first with job id `7`, state `RUNNING` and pipeline
`pipelineA`, the second with job id `8`, state `DONE` and no pipeline. -/
theorem C1_amended_joblist_scenario :
    parse_joblist_output 0
        ("jobid status pipeline\n" ++ tomatoDivider ++ "\n7 r pipelineA\n8 c\n") ""
      = .ok [⟨"7", JobState.RUNNING, Option.some "pipelineA", ["7", "r", "pipelineA"]⟩,
             ⟨"8", JobState.DONE, Option.none, ["8", "c"]⟩]
      ∧ keepJobLine "===" = true
      ∧ keepJobLine tomatoDivider = false
      ∧ keepJobLine "jobid status pipeline" = false := by
  refine ⟨by rfl, by rfl, by rfl, by rfl⟩

/-! ## Claim C2 -/

/-- C2: the kill-command builder interpolates the job id raw; for the job
id `1; rm x` the command produced differs from the one built from the
shell-escaped form required by the specification (which
`_get_detailed_job_info_command` does use). -/
theorem C2_kill_command_unescaped :
    get_kill_command "1; rm x" = "ketchup -t cancel 1; rm x"
      ∧ get_kill_command "1; rm x"
          ≠ "ketchup -t cancel " ++ escape_for_bash "1; rm x"
      ∧ get_detailed_job_info_command "1; rm x"
          = "ketchup -t status " ++ escape_for_bash "1; rm x" := by
  refine ⟨by rfl, by decide, by rfl⟩

/-! ## Claim C3 -/

/-- C3 counterexample: a non-header, non-divider line of exactly 1 token
does not produce the typed `ValueError` of the more-than-3-columns branch:
the access `job[1]` raises an untyped `IndexError` first. -/
theorem C3_counterexample :
    parse_joblist_output 0 "7\n" "" = .error SchedErr.indexError := by
  rfl

/-- C3 amended: a line of 4 or more tokens raises the typed `ValueError`
with the fixed message (which does not name the offending line); a line of
0 or 1 tokens instead raises an untyped `IndexError` before the token
count is examined. -/
theorem C3_amended_column_errors :
    (∀ job : List String, 4 ≤ job.length →
        processJob job = .error (.valueError tooManyColumnsMsg))
      ∧ (∀ job : List String, job.length ≤ 1 →
        processJob job = .error .indexError)
      ∧ parse_joblist_output 0 "1 2 3 4\n" ""
          = .error (.valueError tooManyColumnsMsg) := by
  refine ⟨?_, ?_, by rfl⟩
  · intro job h
    match job with
    | [] => simp at h
    | [_] => simp at h
    | [_, _] => simp at h
    | [_, _, _] => simp at h
    | _ :: _ :: _ :: _ :: _ => rfl
  · intro job h
    match job with
    | [] => rfl
    | [_] => rfl
    | _ :: _ :: _ => simp at h

/-- C3 amended, witness: the general parts of the amended claim applied at
the token lists `["1", "2", "3", "4"]` and `["7"]`. -/
theorem C3_amended_witness :
    processJob ["1", "2", "3", "4"] = .error (.valueError tooManyColumnsMsg)
      ∧ processJob ["7"] = .error .indexError :=
  ⟨C3_amended_column_errors.1 ["1", "2", "3", "4"] (by decide),
   C3_amended_column_errors.2.1 ["7"] (by decide)⟩

/-! ## Claim C4 -/

/-- C4 counterexample: on the stdout of the claim's own example,
`Submitting... jobid = 42`, the regular expression does not match — the
optional prefix group requires the prefix to end in a colon, and the line
has none — so `_parse_submit_output` raises instead of returning `42`. -/
theorem C4_counterexample :
    parse_submit_output 0 "Submitting... jobid = 42\n" ""
      = .error (.schedulerError submitNoJobIdMsg) := by
  rfl

/-- C4 amended: on exit code 0 the parser scans stdout line by line and
returns the digit group of the first matching line; the optional prefix
must end in a colon, matching is case-sensitive, and at least one
whitespace character is required on each side of the `=`. -/
theorem C4_amended_submit_scan :
    parse_submit_output 0 "jobid = 42\n" "" = .ok "42"
      ∧ parse_submit_output 0 "noise\nqueued: jobid = 7\njobid = 9\n" "" = .ok "7"
      ∧ parse_submit_output 0 "JOBID = 42\n" ""
          = .error (.schedulerError submitNoJobIdMsg)
      ∧ tomatoSubmittedMatch "jobid= 42" = Option.none
      ∧ tomatoSubmittedMatch "jobid =42" = Option.none := by
  refine ⟨by rfl, by rfl, by rfl, by rfl, by rfl⟩

/-! ## Claim C5 -/

/-- C5: the status mapping is total and deterministic: each of the six
known Tomato tokens maps to its documented canonical state, and every
other string maps to `UNDETERMINED` (no exception — the `KeyError` branch
is absorbed into the function). -/
theorem C5_map_status_total :
    mapStatusTomato "q" = JobState.QUEUED
      ∧ mapStatusTomato "qw" = JobState.QUEUED
      ∧ mapStatusTomato "r" = JobState.RUNNING
      ∧ mapStatusTomato "c" = JobState.DONE
      ∧ mapStatusTomato "ce" = JobState.DONE
      ∧ mapStatusTomato "cd" = JobState.DONE
      ∧ ∀ s : String, s ∉ (["q", "qw", "r", "c", "ce", "cd"] : List String) →
          mapStatusTomato s = JobState.UNDETERMINED := by
  refine ⟨by rfl, by rfl, by rfl, by rfl, by rfl, by rfl, ?_⟩
  intro s hs
  simp only [List.mem_cons, List.not_mem_nil, or_false, not_or] at hs
  obtain ⟨h1, h2, h3, h4, h5, h6⟩ := hs
  simp [mapStatusTomato, h1, h2, h3, h4, h5, h6]

/-- C5 witness: the fallback clause applied to the concrete unknown token
`zz`. -/
theorem C5_map_status_witness :
    mapStatusTomato "zz" = JobState.UNDETERMINED :=
  C5_map_status_total.2.2.2.2.2.2 "zz" (by decide)

/-! ## Claim C6 -/

/-- C6: when no line of stdout matches the submission pattern,
`_parse_submit_output` raises the job-id-not-found `SchedulerError` even
on exit code 0 — it never returns a job id. -/
theorem C6_no_match_fails (stdout stderr : String)
    (h : ∀ line ∈ pySplitNl stdout,
        tomatoSubmittedMatch (pyStrip line) = Option.none) :
    parse_submit_output 0 stdout stderr
      = .error (.schedulerError submitNoJobIdMsg) := by
  unfold parse_submit_output
  rw [if_neg (by simp)]
  rw [findSome?_eq_none_of _ _ h]

/-- C6 witness: applied to the concrete stdout `all fine, nothing here`. -/
theorem C6_no_match_witness :
    parse_submit_output 0 "all fine, nothing here" ""
      = .error (.schedulerError submitNoJobIdMsg) :=
  C6_no_match_fails "all fine, nothing here" "" (by decide)

/-! ## Claim C7 -/

/-- C7: `_get_joblist_command` (with no user filter) raises
`FeatureNotAvailable` for every list of two or more job ids, returns the
full-queue command for an absent or empty list, and returns the
single-job query command (with the id shell-escaped) for exactly one id. -/
theorem C7_joblist_command_arity :
    (∀ l : List String, 2 ≤ l.length →
        get_joblist_command (.list l) Option.none
          = .error (.featureNotAvailable "ketchup status supports only one job per time"))
      ∧ get_joblist_command .none Option.none = .ok "ketchup -t status queue"
      ∧ get_joblist_command (.list []) Option.none = .ok "ketchup -t status queue"
      ∧ ∀ j : String, get_joblist_command (.list [j]) Option.none
          = .ok ("ketchup -t status " ++ escape_for_bash j) := by
  refine ⟨?_, by rfl, by rfl, ?_⟩
  · intro l h
    obtain ⟨a, t, rfl⟩ : ∃ a t, l = a :: t := by
      cases l with
      | nil => simp at h
      | cons a t => exact ⟨a, t, rfl⟩
    have htr : JobsArg.truthy (.list (a :: t)) = true := by
      simp [JobsArg.truthy]
    have hlen : JobsArg.len (.list (a :: t)) > 1 := by
      simp only [JobsArg.len] at *
      simpa using h
    simp [get_joblist_command, pyTruthyStr, htr, hlen]
  · intro j
    rfl

/-- C7 witness: the multi-id clause applied to the concrete list
`["1", "2"]` and the single-id clause applied to `"5"`. -/
theorem C7_joblist_command_witness :
    get_joblist_command (.list ["1", "2"]) Option.none
        = .error (.featureNotAvailable "ketchup status supports only one job per time")
      ∧ get_joblist_command (.list ["5"]) Option.none
        = .ok ("ketchup -t status " ++ escape_for_bash "5") :=
  ⟨C7_joblist_command_arity.1 ["1", "2"] (by decide),
   C7_joblist_command_arity.2.2.2 "5"⟩

/-! ## Claim C8 -/

/-- C8: `_parse_kill_output` is a total boolean function of the exit code
alone: `false` for every non-zero exit code and `true` for exit code 0,
whatever stdout and stderr contain — never an exception. -/
theorem C8_kill_output_bool :
    ∀ (retval : Int) (stdout stderr : String),
      parse_kill_output retval stdout stderr = decide (retval = 0) := by
  intro retval stdout stderr
  unfold parse_kill_output
  by_cases h : retval = 0
  · simp [h]
  · simp [h]

/-! ## Claim C9 -/

/-- C9: every record of a successful `_parse_joblist_output` run has a
non-empty `job_id`: the id is the first whitespace token of its line, and
whitespace splitting never produces empty tokens. -/
theorem C9_nonempty_job_ids :
    ∀ (retval : Int) (stdout stderr : String) (jobs : List JobInfo),
      parse_joblist_output retval stdout stderr = .ok jobs →
      ∀ j ∈ jobs, j.job_id ≠ "" := by
  intro retval stdout stderr jobs h j hj
  unfold parse_joblist_output at h
  by_cases hr : retval ≠ 0
  · rw [if_pos hr] at h
    cases h
  · rw [if_neg hr] at h
    rcases processJobs_ok_mem h j hj with ⟨job, hjob, hok⟩
    rcases List.mem_map.mp hjob with ⟨line, _, rfl⟩
    exact pySplit_mem_ne_empty (processJob_ok_job_id_mem hok)

/-- C9 witness: applied to the single-job stdout `7 r`. -/
theorem C9_nonempty_job_ids_witness :
    (JobInfo.mk "7" JobState.RUNNING Option.none ["7", "r"]).job_id ≠ "" :=
  C9_nonempty_job_ids 0 "7 r" ""
    [JobInfo.mk "7" JobState.RUNNING Option.none ["7", "r"]] (by rfl)
    (JobInfo.mk "7" JobState.RUNNING Option.none ["7", "r"]) (by simp)

/-! ## Claim C10 -/

/-- C10: a bare string passed as `jobs` is not treated as one job id
unless it is a single character: `len` counts its characters, so the
two-character id `42` is rejected by the more-than-one-job guard, while
the one-character id `7` does produce the single-job command with the
whole string escaped as one token. -/
theorem C10_bare_string_rejected :
    get_joblist_command (.str "42") Option.none
        = .error (.featureNotAvailable "ketchup status supports only one job per time")
      ∧ get_joblist_command (.str "7") Option.none
        = .ok ("ketchup -t status " ++ escape_for_bash "7") := by
  refine ⟨by rfl, by rfl⟩
